import Mathlib

/-!
Verification of the session registry, gateway middleware, payload validation
and forwarding route of the HTTP-Proxy-Server repository.

The Python code is shallowly embedded: the mutable singleton session store
becomes an explicit `SessionManager` value threaded through the operations,
`datetime.now()` becomes an explicit `now : Nat` argument (seconds), the
`requests.Session` object owned by each record becomes a `ClientInstance`
value whose network handle identity is a `Nat`, and closing a handle is
recorded by appending it to `closedHandles`.  Network I/O performed by the
`forward` route is a `NetOutcome` oracle argument.
-/

/-- A cookie as stored in a `requests` cookie jar (`name`, `value`, `domain`,
`path`), the shape exposed by the routes. -/
structure Cookie where
  name : String
  value : String
  domain : String
  path : String
deriving DecidableEq, Repr

/-- Embeds the `requests.Session` object stored under the `"instance"` key of
a session record: its network handle (connection pool identity), its header
dictionary (a `CaseInsensitiveDict`, kept as an ordered association list),
its cookie jar and its `verify` flag. -/
structure ClientInstance where
  handle : Nat
  headers : List (String × String)
  cookies : List Cookie
  verify : Bool
deriving DecidableEq, Repr

/-- One session record, the dictionary built by `SessionManager.createSession`
in `src/services/sesion_manager.py`.  The Python `"instance"` key is named
`session_instance` (`instance` is a Lean keyword). -/
structure SessionData where
  session_id : String
  client_ip : String
  user_agent : Option String
  created_at : Nat
  last_activity : Nat
  request_count : Nat
  session_instance : ClientInstance
deriving DecidableEq, Repr

/-- The state of the `SessionManager` singleton: the `_sessions` dict (an
ordered association list, Python dicts preserve insertion order), the
`_session_timeout` in seconds, and the handles closed so far (each
`instance.close()` appends the handle here). -/
structure SessionManager where
  sessions : List (String × SessionData)
  session_timeout : Nat
  closedHandles : List Nat
deriving DecidableEq, Repr

/-- `getSession`: `self._sessions.get(session_id)`. -/
def getSession (m : SessionManager) (session_id : String) : Option SessionData :=
  (m.sessions.find? (fun p => p.1 == session_id)).map (fun p => p.2)

/-- `sessionExists`: `session_id in self._sessions`. -/
def sessionExists (m : SessionManager) (session_id : String) : Bool :=
  m.sessions.any (fun p => p.1 == session_id)

/-- `deleteSession`: if the session exists, close its `requests.Session`
instance and delete the dict entry; otherwise do nothing. -/
def deleteSession (m : SessionManager) (session_id : String) : SessionManager :=
  match getSession m session_id with
  | none => m
  | some r =>
      { m with
        sessions := m.sessions.filter (fun p => p.1 != session_id),
        closedHandles := m.closedHandles ++ [r.session_instance.handle] }

/-- `isSessionValid`: absent sessions are invalid; an existing session whose
idle time `now - last_activity` strictly exceeds the timeout is deleted and
reported invalid; otherwise it is valid and the store is untouched.  (The
Python guard `if not self.sessionExists(...)` followed by dict indexing is
exactly the `none`/`some` split on `getSession`.) -/
def isSessionValid (m : SessionManager) (now : Nat) (session_id : String) :
    Bool × SessionManager :=
  match getSession m session_id with
  | none => (false, m)
  | some session =>
      if now - session.last_activity > m.session_timeout then
        (false, deleteSession m session_id)
      else
        (true, m)

/-- Rewrite the record stored under `session_id` in place (Python mutates the
dict entry; keys are unique in a dict, so mapping over the list is the same
update). -/
def mapEntry (m : SessionManager) (session_id : String)
    (f : SessionData → SessionData) : SessionManager :=
  { m with
    sessions := m.sessions.map
      (fun p => if p.1 == session_id then (p.1, f p.2) else p) }

/-- The touch applied to a record on an authenticated request:
`last_activity = now`, `request_count += 1`. -/
def touchRecord (now : Nat) (s : SessionData) : SessionData :=
  { s with last_activity := now, request_count := s.request_count + 1 }

/-- `updateLastActivity`: set `last_activity` to `now` and increment
`request_count`, only when the session exists. -/
def updateLastActivity (m : SessionManager) (now : Nat) (session_id : String) :
    SessionManager :=
  if sessionExists m session_id then mapEntry m session_id (touchRecord now)
  else m

/-- `cleanupExpiredSessions`: collect the ids of all expired sessions, then
delete them one by one.  The Python function has no `return` statement, i.e.
it returns `None`; the second component embeds that returned value (`none`). -/
def cleanupExpiredSessions (m : SessionManager) (now : Nat) :
    SessionManager × Option Nat :=
  let expired_sessions :=
    (m.sessions.filter
      (fun p => now - p.2.last_activity > m.session_timeout)).map (fun p => p.1)
  (expired_sessions.foldl (fun acc session_id => deleteSession acc session_id) m,
   none)

/-- Well-formedness inherited from Python dict semantics: session ids key the
map uniquely. -/
def WF (m : SessionManager) : Prop :=
  (m.sessions.map (fun p => p.1)).Nodup

/-- The network handles owned by live records. -/
def liveHandles (m : SessionManager) : List Nat :=
  m.sessions.map (fun p => p.2.session_instance.handle)

/-- Resource invariant: every handle is owned by at most one party — no
handle appears twice among the live records and the already-closed handles. -/
def HandleInv (m : SessionManager) : Prop :=
  (liveHandles m ++ m.closedHandles).Nodup

/-- Python `str.upper`, character-wise (ASCII upper-casing), kept
kernel-computable over the character list. -/
def strUpper (s : String) : String := String.mk (s.data.map Char.toUpper)

/-- Python `str.lower`, character-wise, kernel-computable. -/
def strLower (s : String) : String := String.mk (s.data.map Char.toLower)

/-- Character-list test that `pat` occurs at the start of the second list. -/
def strLead : List Char → List Char → Bool
  | [], _ => true
  | _ :: _, [] => false
  | a :: as, b :: bs => a == b && strLead as bs

/-- Python `str.startswith`. -/
def strStartsWith (s pat : String) : Bool := strLead pat.data s.data

/-- Key comparison of `requests.structures.CaseInsensitiveDict`: lowercased
keys. -/
def keyEq (a b : String) : Bool := strLower a == strLower b

/-- `CaseInsensitiveDict.__setitem__`: replace the entry whose key matches
case-insensitively (storing the new original-cased key), else append. -/
def headersSet (hs : List (String × String)) (k v : String) :
    List (String × String) :=
  if hs.any (fun p => keyEq p.1 k) then
    hs.map (fun p => if keyEq p.1 k then (k, v) else p)
  else hs ++ [(k, v)]

/-- `dict.update` on a `CaseInsensitiveDict`: set each pair in order. -/
def headersUpdate (hs new : List (String × String)) : List (String × String) :=
  new.foldl (fun acc p => headersSet acc p.1 p.2) hs

/-- Whether a jar cookie has the given `(name, domain, path)` composite key. -/
def cookieKeyMatches (c : Cookie) (name domain path : String) : Bool :=
  c.name == name && c.domain == domain && c.path == path

/-- `RequestsCookieJar.set(name, value, domain=…, path=…)`: the jar drops any
cookie with the same `(name, domain, path)` key and stores the new one. -/
def cookiesSet (jar : List Cookie) (name value domain path : String) :
    List Cookie :=
  (jar.filter (fun c => !(cookieKeyMatches c name domain path)))
    ++ [{ name := name, value := value, domain := domain, path := path }]

/-- One `session.cookies.set(…)` call of the `forward` route applied to the
record of `session_id`. -/
def mergeSessionCookie (m : SessionManager) (session_id : String)
    (name value domain path : String) : SessionManager :=
  mapEntry m session_id (fun r =>
    { r with session_instance :=
        { r.session_instance with
          cookies := cookiesSet r.session_instance.cookies name value domain path } })

/-- The `/set-headers` route body for a string-to-string payload (the route's
runtime `isinstance` check is satisfied by the type): fetch the session
instance (`ValueError` → `none` is impossible for a valid session), then
`session.headers.clear()` followed by `session.headers.update(payload)`. -/
def set_headers (m : SessionManager) (session_id : String)
    (payload : List (String × String)) : Option SessionManager :=
  match getSession m session_id with
  | none => none
  | some _ =>
      some (mapEntry m session_id (fun r =>
        { r with session_instance :=
            { r.session_instance with headers := headersUpdate [] payload } }))

/-- The `/get-headers` route body: `dict(session.headers)` of the resolved
session. -/
def get_headers (m : SessionManager) (session_id : String) :
    Option (List (String × String)) :=
  (getSession m session_id).map (fun r => r.session_instance.headers)

/-- The `value`/`domain`/`path` dictionary required for each payload cookie
by `HTTPRequestPayload.validate_cookies`. -/
structure CookieData where
  value : String
  domain : String
  path : String
deriving DecidableEq, Repr

/-- The `HTTPRequestPayload` pydantic model (field `json_data` kept abstract
as text, float-free). -/
structure HTTPRequestPayload where
  url : String
  method : String := "GET"
  params : List (String × String) := []
  data : Option String := none
  json_data : Option String := none
  headers : Option (List (String × String)) := none
  cookies : Option (List (String × CookieData)) := none
  timeout : Nat := 30
  allow_redirects : Bool := true
deriving DecidableEq, Repr

/-- The allow-list of `HTTPRequestPayload.validate_method`. -/
def allowed_methods : List String :=
  ["GET", "POST", "PUT", "DELETE", "PATCH", "HEAD", "OPTIONS"]

/-- `validate_method`: reject unless `v.upper()` is an allowed method, and
return the upper-cased method. -/
def validate_method (v : String) : Except String String :=
  if allowed_methods.contains (strUpper v) then .ok (strUpper v)
  else .error "Invalid HTTP method. Must be one of: GET, POST, PUT, DELETE, PATCH, HEAD, OPTIONS"

/-- `validate_url`: the url must start with `http://` or `https://`. -/
def validate_url (v : String) : Except String String :=
  if strStartsWith v "http://" || strStartsWith v "https://" then .ok v
  else .error "URL must start with http:// or https://"

/-- `timeout` field constraint `ge=1, le=300` of the pydantic model. -/
def validate_timeout (t : Nat) : Except String Nat :=
  if 1 ≤ t ∧ t ≤ 300 then .ok t
  else .error "Input should be in the range 1 to 300"

/-- Pydantic validation of the whole payload, run by FastAPI before the
route handler body executes (field order: `url`, `method`, `timeout`). -/
def validatePayload (p : HTTPRequestPayload) : Except String HTTPRequestPayload :=
  match validate_url p.url with
  | .error e => .error e
  | .ok u =>
      match validate_method p.method with
      | .error e => .error e
      | .ok mth =>
          match validate_timeout p.timeout with
          | .error e => .error e
          | .ok t => .ok { p with url := u, method := mth, timeout := t }

/-- What the target server did for one outbound call: the oracle consumed by
the embedded `forward` route in place of real network I/O. -/
inductive NetOutcome where
  | success (reason : Option String) (status_code : Nat)
      (respHeaders : List (String × String)) (respCookies : List Cookie)
      (finalUrl : String) (ok : Bool) (history : List String) (body : String)
  | timeout
  | connectionError (msg : String)
  | httpError (msg : String)
  | otherError (typeName : String) (msg : String)
deriving DecidableEq, Repr

/-- The success body built by the `forward` route (fields representable
without floats; `elapsed`, `encoding` and byte counts are diagnostics omitted
from the embedding). -/
structure ForwardData where
  status : String
  status_code : Nat
  headers : List (String × String)
  cookies : List Cookie
  session_cookies : List Cookie
  url : String
  ok : Bool
  history : List String
  content_type : String
  body : String
deriving DecidableEq, Repr

/-- A JSON response of the proxy routes, flattened: the optional fields model
the keys present in the various JSON bodies the route can build. -/
structure RouteResponse where
  status_code : Nat
  error : Option String := none
  error_type : Option String := none
  url : Option String := none
  timeout : Option Nat := none
  method : Option String := none
  data : Option ForwardData := none
  detail : Option String := none
deriving DecidableEq, Repr

/-- Write a whole cookie jar into the record of `session_id`. -/
def setSessionCookies (m : SessionManager) (session_id : String)
    (jar : List Cookie) : SessionManager :=
  mapEntry m session_id (fun r =>
    { r with session_instance := { r.session_instance with cookies := jar } })

/-- The payload-cookie merge loop of `forward`: each supplied cookie is
`session.cookies.set` into the jar (an absent/empty mapping merges nothing). -/
def mergePayloadCookies (jar : List Cookie)
    (pc : Option (List (String × CookieData))) : List Cookie :=
  match pc with
  | none => jar
  | some cs =>
      cs.foldl (fun j q => cookiesSet j q.1 q.2.value q.2.domain q.2.path) jar

/-- The `Set-Cookie` merge-back of a successful response:
`session.cookies.update(response.cookies)` sets each response cookie into the
jar by its `(name, domain, path)` key. -/
def mergeResponseCookies (jar : List Cookie) (respCookies : List Cookie) :
    List Cookie :=
  respCookies.foldl (fun j c => cookiesSet j c.name c.value c.domain c.path) jar

/-- The `/forward` route body on a validated payload.  The session's header
dictionary is only copied (`session.headers.copy()`) for the outbound
request, never written back; payload cookies are merged into the jar before
the call; each network outcome maps to the JSON response of the matching
`except` branch (a missing session raises `ValueError` inside the `try`,
caught by the generic branch). -/
def forward (m : SessionManager) (session_id : String)
    (payload : HTTPRequestPayload) (net : NetOutcome) :
    SessionManager × RouteResponse :=
  match getSession m session_id with
  | none =>
      (m, { status_code := 500,
            error := some "Unexpected error while forwarding request: Session not found.",
            error_type := some "ValueError",
            url := some payload.url, method := some payload.method })
  | some r =>
      let request_headers :=
        headersUpdate r.session_instance.headers (payload.headers.getD [])
      let jar1 := mergePayloadCookies r.session_instance.cookies payload.cookies
      let m1 := setSessionCookies m session_id jar1
      match net with
      | .success reason status_code respHeaders respCookies finalUrl ok history body =>
          let jar2 := mergeResponseCookies jar1 respCookies
          let m2 := setSessionCookies m1 session_id jar2
          (m2, { status_code := status_code,
                 data := some
                   { status := reason.getD "OK",
                     status_code := status_code,
                     headers := respHeaders,
                     cookies := respCookies,
                     session_cookies := jar2,
                     url := finalUrl,
                     ok := ok,
                     history := history,
                     content_type :=
                       ((respHeaders.find? (fun h => strLower h.1 == "content-type")).map
                         (fun h => h.2)).getD "unknown",
                     body := body } })
      | .timeout =>
          (m1, { status_code := 408,
                 error := some ("Timeout while making request to " ++ payload.url
                   ++ " after " ++ toString payload.timeout ++ "s"),
                 error_type := some "TimeoutError",
                 url := some payload.url,
                 timeout := some payload.timeout,
                 method := some payload.method })
      | .connectionError msg =>
          (m1, { status_code := 502,
                 error := some ("Connection error while forwarding request: " ++ msg),
                 error_type := some "ConnectionError",
                 url := some payload.url,
                 method := some payload.method })
      | .httpError msg =>
          (m1, { status_code := 500,
                 error := some ("HTTP error while forwarding request: " ++ msg),
                 error_type := some "HTTPError",
                 url := some payload.url,
                 method := some payload.method })
      | .otherError typeName msg =>
          (m1, { status_code := 500,
                 error := some ("Unexpected error while forwarding request: " ++ msg),
                 error_type := some typeName,
                 url := some payload.url,
                 method := some payload.method })

/-- The `/forward` endpoint as FastAPI sees it: pydantic validation runs
first; a validation failure yields a 422 error response and the handler body
(and so any store access or network call) never runs. -/
def forwardEndpoint (m : SessionManager) (session_id : String)
    (p : HTTPRequestPayload) (net : NetOutcome) :
    SessionManager × RouteResponse :=
  match validatePayload p with
  | .error e => (m, { status_code := 422, detail := some e })
  | .ok q => forward m session_id q net

/-- `SessionMiddleware.URI_EXCEPTIONS`. -/
def URI_EXCEPTIONS : List String :=
  ["/docs", "/openapi.json", "/redoc", "/health-check", "/favicon.ico", "/subscribe"]

/-- The middleware's 401 body when no usable session id is in the headers. -/
def missingMsg : String :=
  "Session ID is missing. Please provide a valid session ID."

/-- The middleware's 401 body when the session id fails validation. -/
def invalidMsg : String :=
  "Invalid or expired session ID. Please provide a valid session ID."

/-- A middleware-level response: status code plus the `message` content. -/
structure MWResponse where
  status_code : Nat
  message : Option String := none
deriving DecidableEq, Repr

/-- The observable outcome of one `SessionMiddleware.dispatch` run. -/
structure DispatchOut where
  response : MWResponse
  state : SessionManager
  attached_session_id : Option String
  handler_called : Bool
deriving DecidableEq, Repr

/-- `SessionMiddleware.dispatch`: allow-listed paths pass straight through;
a missing header or an empty header value is falsy in Python (`if not
session_id`) and yields the missing-id 401; otherwise the singleton manager
first runs `cleanupExpiredSessions`, then `isSessionValid`; an invalid id
yields the invalid-session 401; a valid one is touched, attached to the
request state, and the handler runs. -/
def dispatch (m : SessionManager) (now : Nat) (path : String)
    (headerSessionId : Option String) (handlerResponse : MWResponse) :
    DispatchOut :=
  if URI_EXCEPTIONS.contains path then
    { response := handlerResponse, state := m,
      attached_session_id := none, handler_called := true }
  else
    match headerSessionId with
    | none =>
        { response := { status_code := 401, message := some missingMsg },
          state := m, attached_session_id := none, handler_called := false }
    | some session_id =>
        if session_id == "" then
          { response := { status_code := 401, message := some missingMsg },
            state := m, attached_session_id := none, handler_called := false }
        else
          let m1 := (cleanupExpiredSessions m now).1
          let v := isSessionValid m1 now session_id
          if !v.1 then
            { response := { status_code := 401, message := some invalidMsg },
              state := v.2, attached_session_id := none, handler_called := false }
          else
            { response := handlerResponse,
              state := updateLastActivity v.2 now session_id,
              attached_session_id := some session_id, handler_called := true }

/-- The class-level state read and written by `SessionManager.__new__`:
`_instance` (identity of the one instance, if built) and `_session_timeout`. -/
structure SessionManagerClass where
  instance_ref : Option Nat
  class_timeout : Nat
deriving DecidableEq, Repr

/-- Class state before any construction: `_instance = None`,
`_session_timeout = 600`. -/
def initialClass : SessionManagerClass :=
  { instance_ref := none, class_timeout := 600 }

/-- `SessionManager.__new__(cls, session_timeout=600)`: build the instance
and store the timeout only when `_instance` is `None`; afterwards every call
returns the same instance and ignores its argument (`__init__` is a `pass`). -/
def SessionManagerNew (cls : SessionManagerClass) (session_timeout : Nat) :
    SessionManagerClass × Nat :=
  match cls.instance_ref with
  | none => ({ instance_ref := some 0, class_timeout := session_timeout }, 0)
  | some i => (cls, i)

/-- Sample client instance for concrete witnesses. -/
def sampleInstance : ClientInstance :=
  { handle := 1, headers := [], cookies := [], verify := false }

/-- Sample record (last activity at time 0). -/
def sampleRecord : SessionData :=
  { session_id := "s1", client_ip := "127.0.0.1", user_agent := some "ua",
    created_at := 0, last_activity := 0, request_count := 0,
    session_instance := sampleInstance }

/-- Sample store holding the one sample record, timeout 10 seconds. -/
def sampleMgr : SessionManager :=
  { sessions := [("s1", sampleRecord)], session_timeout := 10,
    closedHandles := [] }

/-- Sample empty store. -/
def emptyMgr : SessionManager :=
  { sessions := [], session_timeout := 600, closedHandles := [] }

/-- Sample well-formed payload. -/
def samplePayload : HTTPRequestPayload :=
  { url := "https://example.test/echo", method := "GET" }

/-- Payload using the disallowed `TRACE` method. -/
def tracePayload : HTTPRequestPayload :=
  { url := "https://example.test/echo", method := "TRACE" }

/-- Payload using a non-HTTP url. -/
def ftpPayload : HTTPRequestPayload :=
  { url := "ftp://x" }

/-- Payload that supplies one extra cookie. -/
def cookiePayload : HTTPRequestPayload :=
  { url := "https://example.test/echo", method := "GET",
    cookies := some [("sid", { value := "v", domain := "d", path := "/" })] }

/-! ## Lemmas about the store operations -/

/-- `find?` for the self key after an in-place entry update. -/
theorem find?_mapEntry_self (l : List (String × SessionData)) (sid : String)
    (f : SessionData → SessionData) :
    (l.map (fun p => if p.1 == sid then (p.1, f p.2) else p)).find?
        (fun p => p.1 == sid)
      = (l.find? (fun p => p.1 == sid)).map (fun p => (p.1, f p.2)) := by
  induction l with
  | nil => rfl
  | cons a t ih =>
      rw [List.map_cons]
      cases hb : (a.1 == sid) with
      | true => simp [List.find?_cons, hb]
      | false =>
          rw [if_neg (by simp)]
          simp only [List.find?_cons, hb]
          exact ih

/-- `getSession` after `mapEntry` on the same id. -/
theorem getSession_mapEntry_self (m : SessionManager) (sid : String)
    (f : SessionData → SessionData) :
    getSession (mapEntry m sid f) sid = (getSession m sid).map f := by
  unfold getSession mapEntry
  rw [find?_mapEntry_self]
  cases m.sessions.find? (fun p => p.1 == sid) <;> rfl

/-- Deleting a session makes its id unresolvable. -/
theorem getSession_deleteSession_self (m : SessionManager) (sid : String) :
    getSession (deleteSession m sid) sid = none := by
  unfold deleteSession
  cases h : getSession m sid with
  | none => exact h
  | some r =>
      have hfind : (m.sessions.filter (fun p => p.1 != sid)).find?
          (fun p => p.1 == sid) = none := by
        apply List.find?_eq_none.mpr
        intro x hx
        have h2 := (List.mem_filter.mp hx).2
        simp only [bne_iff_ne, ne_eq] at h2
        simp [h2]
      simp [getSession, hfind]

/-- Dropping all entries of one key does not move `find?` for another key. -/
theorem find?_filter_of_ne (l : List (String × SessionData)) (a b : String)
    (hab : b ≠ a) :
    (l.filter (fun p => p.1 != a)).find? (fun p => p.1 == b)
      = l.find? (fun p => p.1 == b) := by
  induction l with
  | nil => rfl
  | cons x t ih =>
      by_cases hb : x.1 == b
      · have hxb : x.1 = b := eq_of_beq hb
        have hxa : (x.1 != a) = true := by
          simp [bne_iff_ne, hxb]
          exact hab
        simp [List.filter_cons, hxa, hb]
      · by_cases hxa : (x.1 != a) = true
        · simp [List.filter_cons, hxa, hb, ih]
        · simp [List.filter_cons, hxa, hb, ih]

/-- Deleting one session leaves every other id's resolution unchanged. -/
theorem getSession_deleteSession_other (m : SessionManager) (sid sid' : String)
    (h : sid' ≠ sid) :
    getSession (deleteSession m sid) sid' = getSession m sid' := by
  unfold deleteSession
  cases hg : getSession m sid with
  | none => rfl
  | some r => simp [getSession, find?_filter_of_ne _ _ _ h]

/-- `deleteSession` never changes the configured timeout. -/
theorem deleteSession_timeout (m : SessionManager) (sid : String) :
    (deleteSession m sid).session_timeout = m.session_timeout := by
  unfold deleteSession
  cases getSession m sid <;> rfl

/-- `any` of a key test agrees with `find?` reporting a hit. -/
theorem any_key_eq_isSome (l : List (String × SessionData)) (sid : String) :
    l.any (fun p => p.1 == sid) = (l.find? (fun p => p.1 == sid)).isSome := by
  induction l with
  | nil => rfl
  | cons a t ih =>
      by_cases h : a.1 == sid
      · simp [h]
      · simp [h, ih]

/-- `sessionExists` is exactly resolvability via `getSession`. -/
theorem sessionExists_eq (m : SessionManager) (sid : String) :
    sessionExists m sid = (getSession m sid).isSome := by
  unfold sessionExists getSession
  rw [any_key_eq_isSome]
  cases m.sessions.find? (fun p => p.1 == sid) <;> rfl

/-! ## Claim theorems -/

/-- Claim C1: `isSessionValid` returns false on an absent id; on a present
record whose idle time exceeds the timeout it deletes the record, returns
false, and `getSession` on the resulting store reports `none`; on a present
non-expired record it returns true and leaves the store unchanged. -/
theorem c1_isSessionValid (m : SessionManager) (now : Nat) (sid : String) :
    (getSession m sid = none → isSessionValid m now sid = (false, m))
    ∧ (∀ r, getSession m sid = some r →
        now - r.last_activity > m.session_timeout →
        (isSessionValid m now sid).1 = false
        ∧ getSession (isSessionValid m now sid).2 sid = none)
    ∧ (∀ r, getSession m sid = some r →
        ¬ (now - r.last_activity > m.session_timeout) →
        isSessionValid m now sid = (true, m)) := by
  refine ⟨?_, ?_, ?_⟩
  · intro h
    simp [isSessionValid, h]
  · intro r h hexp
    simp [isSessionValid, h, hexp, getSession_deleteSession_self]
  · intro r h hexp
    simp [isSessionValid, h, hexp]

/-- Witness for C1 at a concrete expired store. -/
theorem c1_witness :
    (isSessionValid sampleMgr 100 "s1").1 = false
    ∧ getSession (isSessionValid sampleMgr 100 "s1").2 "s1" = none :=
  (c1_isSessionValid sampleMgr 100 "s1").2.1 sampleRecord (by decide) (by decide)

/-- Claim C10: `SessionManager.__new__` is a class-level singleton — a second
construction with any timeout returns the first instance and leaves the
class timeout (and hence every later validity check, including the
middleware's default-argument construction) governed by the first
construction's timeout. -/
theorem c10_singleton (t0 t1 : Nat) :
    SessionManagerNew (SessionManagerNew initialClass t0).1 t1
        = ((SessionManagerNew initialClass t0).1, (SessionManagerNew initialClass t0).2)
    ∧ (SessionManagerNew (SessionManagerNew initialClass t0).1 t1).1.class_timeout = t0
    ∧ (∀ cls i t, cls.instance_ref = some i → SessionManagerNew cls t = (cls, i))
    ∧ (SessionManagerNew (SessionManagerNew initialClass t0).1 600).1.class_timeout = t0
    ∧ (∀ (ss : List (String × SessionData)) (cl : List Nat) (now : Nat) (sid : String),
        isSessionValid
          { sessions := ss,
            session_timeout :=
              (SessionManagerNew (SessionManagerNew initialClass t0).1 t1).1.class_timeout,
            closedHandles := cl } now sid
          = isSessionValid
              { sessions := ss, session_timeout := t0, closedHandles := cl } now sid) := by
  refine ⟨rfl, rfl, ?_, rfl, ?_⟩
  · intro cls i t h
    unfold SessionManagerNew
    rw [h]
  · intro ss cl now sid
    rfl

/-- Witness for C10 at concrete timeouts and a concrete already-built class. -/
theorem c10_witness :
    (SessionManagerNew (SessionManagerNew initialClass 7).1 9).1.class_timeout = 7
    ∧ SessionManagerNew { instance_ref := some 3, class_timeout := 42 } 9
        = ({ instance_ref := some 3, class_timeout := 42 }, 3) :=
  ⟨(c10_singleton 7 9).2.1, (c10_singleton 7 9).2.2.1 _ 3 9 rfl⟩

/-- Claim C3: every network-level failure of `forward` maps to its distinct
outward status — timeout to 408 (body carrying url, method and the configured
timeout), connection errors to 502 (url, method), HTTP-protocol errors and
any other unexpected failure to 500 with a stable `error_type` tag plus url
and method. -/
theorem c3_forward_errors (m : SessionManager) (sid : String)
    (r : SessionData) (p : HTTPRequestPayload)
    (hr : getSession m sid = some r) :
    ((forward m sid p .timeout).2.status_code = 408
      ∧ (forward m sid p .timeout).2.url = some p.url
      ∧ (forward m sid p .timeout).2.method = some p.method
      ∧ (forward m sid p .timeout).2.timeout = some p.timeout
      ∧ (forward m sid p .timeout).2.error_type = some "TimeoutError")
    ∧ (∀ msg, (forward m sid p (.connectionError msg)).2.status_code = 502
      ∧ (forward m sid p (.connectionError msg)).2.url = some p.url
      ∧ (forward m sid p (.connectionError msg)).2.method = some p.method
      ∧ (forward m sid p (.connectionError msg)).2.error_type = some "ConnectionError")
    ∧ (∀ msg, (forward m sid p (.httpError msg)).2.status_code = 500
      ∧ (forward m sid p (.httpError msg)).2.error_type = some "HTTPError"
      ∧ (forward m sid p (.httpError msg)).2.url = some p.url
      ∧ (forward m sid p (.httpError msg)).2.method = some p.method)
    ∧ (∀ ty msg, (forward m sid p (.otherError ty msg)).2.status_code = 500
      ∧ (forward m sid p (.otherError ty msg)).2.error_type = some ty
      ∧ (forward m sid p (.otherError ty msg)).2.url = some p.url
      ∧ (forward m sid p (.otherError ty msg)).2.method = some p.method) := by
  refine ⟨?_, ?_, ?_, ?_⟩ <;> simp [forward, hr]

/-- Witness for C3 at a concrete session and payload, timeout outcome. -/
theorem c3_witness :
    (forward sampleMgr "s1" samplePayload .timeout).2.status_code = 408
    ∧ (forward sampleMgr "s1" samplePayload .timeout).2.url = some samplePayload.url
    ∧ (forward sampleMgr "s1" samplePayload .timeout).2.method = some samplePayload.method
    ∧ (forward sampleMgr "s1" samplePayload .timeout).2.timeout = some samplePayload.timeout
    ∧ (forward sampleMgr "s1" samplePayload .timeout).2.error_type = some "TimeoutError" :=
  (c3_forward_errors sampleMgr "s1" sampleRecord samplePayload (by decide)).1

/-- Claim C4: a method outside the allow-list (case-insensitively) or a url
not starting with `http://`/`https://` makes payload validation fail, and a
validation failure returns before the handler body runs — the store is
untouched and the result is independent of any network outcome; accepted
methods are normalized to upper case. -/
theorem c4_payload_validation (p : HTTPRequestPayload) :
    ((¬ allowed_methods.contains (strUpper p.method) = true
        ∨ ¬ (strStartsWith p.url "http://" = true ∨ strStartsWith p.url "https://" = true)) →
      ∃ e, validatePayload p = .error e)
    ∧ (∀ q, validatePayload p = .ok q →
        q.method = strUpper p.method ∧ allowed_methods.contains q.method = true
        ∧ q.url = p.url)
    ∧ (∀ e, validatePayload p = .error e →
        ∀ (m : SessionManager) (sid : String) (net net' : NetOutcome),
          forwardEndpoint m sid p net = (m, { status_code := 422, detail := some e })
          ∧ forwardEndpoint m sid p net = forwardEndpoint m sid p net') := by
  refine ⟨?_, ?_, ?_⟩
  · intro h
    unfold validatePayload validate_url validate_method
    by_cases hurl : (strStartsWith p.url "http://" || strStartsWith p.url "https://") = true
    · have hm : ¬ allowed_methods.contains (strUpper p.method) = true := by
        rcases h with hm | hu
        · exact hm
        · exact absurd (Bool.or_eq_true _ _ |>.mp hurl) hu
      rw [if_pos hurl, if_neg hm]
      exact ⟨_, rfl⟩
    · rw [if_neg hurl]
      exact ⟨_, rfl⟩
  · intro q hq
    unfold validatePayload validate_url validate_method validate_timeout at hq
    by_cases hurl : (strStartsWith p.url "http://" || strStartsWith p.url "https://") = true
    · rw [if_pos hurl] at hq
      by_cases hm : allowed_methods.contains (strUpper p.method) = true
      · rw [if_pos hm] at hq
        by_cases ht : 1 ≤ p.timeout ∧ p.timeout ≤ 300
        · rw [if_pos ht] at hq
          cases hq
          exact ⟨rfl, hm, rfl⟩
        · rw [if_neg ht] at hq
          cases hq
      · rw [if_neg hm] at hq
        cases hq
    · rw [if_neg hurl] at hq
      cases hq
  · intro e he m sid net net'
    unfold forwardEndpoint
    rw [he]
    exact ⟨rfl, rfl⟩

/-- Witness for C4: `TRACE` and `ftp://x` payloads are rejected, and the
rejected request's outcome ignores the network entirely. -/
theorem c4_witness :
    (∃ e, validatePayload tracePayload = .error e)
    ∧ (∃ e, validatePayload ftpPayload = .error e)
    ∧ forwardEndpoint emptyMgr "x" tracePayload .timeout
        = forwardEndpoint emptyMgr "x" tracePayload (.connectionError "boom") := by
  have h1 := (c4_payload_validation tracePayload).1 (Or.inl (by decide))
  have h2 := (c4_payload_validation ftpPayload).1 (Or.inr (by decide))
  obtain ⟨e, he⟩ := h1
  exact ⟨⟨e, he⟩, h2,
    ((c4_payload_validation tracePayload).2.2 e he emptyMgr "x"
      .timeout (.connectionError "boom")).2⟩

/-- Setting a header whose lowercased key is absent appends the pair. -/
theorem headersSet_absent (acc : List (String × String)) (k v : String)
    (h : ∀ q ∈ acc, strLower q.1 ≠ strLower k) :
    headersSet acc k v = acc ++ [(k, v)] := by
  unfold headersSet
  rw [if_neg]
  intro hany
  obtain ⟨q, hq, hkey⟩ := List.any_eq_true.mp hany
  exact h q hq (eq_of_beq hkey)

/-- Updating with pairwise-fresh keys is plain concatenation. -/
theorem headersUpdate_fresh (new : List (String × String)) :
    ∀ acc, ((new.map (fun q => strLower q.1)).Nodup) →
    (∀ q ∈ new, ∀ a ∈ acc, strLower a.1 ≠ strLower q.1) →
    headersUpdate acc new = acc ++ new := by
  induction new with
  | nil => intro acc _ _; simp [headersUpdate]
  | cons p rest ih =>
      intro acc hnd hdisj
      rw [List.map_cons, List.nodup_cons] at hnd
      have hset : headersSet acc p.1 p.2 = acc ++ [p] := by
        have h0 := headersSet_absent acc p.1 p.2
          (fun q hq => hdisj p (List.mem_cons_self _ _) q hq)
        simpa using h0
      have hrest : headersUpdate (acc ++ [p]) rest = (acc ++ [p]) ++ rest := by
        apply ih
        · exact hnd.2
        · intro q hq a ha
          rcases List.mem_append.mp ha with ha' | ha'
          · exact hdisj q (List.mem_cons_of_mem _ hq) a ha'
          · rcases List.mem_singleton.mp ha' with rfl
            intro hcontra
            exact hnd.1 (by
              rw [hcontra]
              exact List.mem_map_of_mem (fun q => strLower q.1) hq)
      calc headersUpdate acc (p :: rest)
          = headersUpdate (headersSet acc p.1 p.2) rest := rfl
        _ = headersUpdate (acc ++ [p]) rest := by rw [hset]
        _ = (acc ++ [p]) ++ rest := hrest
        _ = acc ++ (p :: rest) := by simp

/-- Counterexample for C6: the session header store is case-insensitive
(`requests` uses a `CaseInsensitiveDict`), so a payload holding two keys that
differ only in case — a legal string-to-string dict — collapses to one entry:
`set-headers` followed by `get-headers` does not return exactly that
mapping. -/
theorem c6_counterexample :
    (set_headers sampleMgr "s1" [("A", "1"), ("a", "2")]).bind
        (fun m2 => get_headers m2 "s1") = some [("a", "2")]
    ∧ some [("a", "2")] ≠ some [("A", "1"), ("a", "2")] := by
  decide

/-- Claim C6 (amended): on a live session and for every mapping whose keys
are pairwise distinct case-insensitively (the header dictionary compares
keys case-insensitively), `set-headers` followed by `get-headers` returns
exactly the supplied mapping — wholesale replacement of whatever was stored
before. -/
theorem c6_set_then_get_headers (m : SessionManager) (sid : String)
    (r : SessionData) (payload : List (String × String))
    (hr : getSession m sid = some r)
    (hnd : (payload.map (fun q => strLower q.1)).Nodup) :
    ∃ m', set_headers m sid payload = some m'
      ∧ get_headers m' sid = some payload := by
  refine ⟨_, by rw [set_headers, hr], ?_⟩
  have hupd : headersUpdate [] payload = payload := by
    have := headersUpdate_fresh payload [] hnd (by intro q _ a ha; cases ha)
    simpa using this
  rw [get_headers, getSession_mapEntry_self, hr]
  simp [hupd]

/-- Witness for C6 on the sample session. -/
theorem c6_witness :
    ∃ m', set_headers sampleMgr "s1" [("X-Test", "1")] = some m'
      ∧ get_headers m' "s1" = some [("X-Test", "1")] :=
  c6_set_then_get_headers sampleMgr "s1" sampleRecord [("X-Test", "1")]
    (by decide) (by decide)

/-- Setting a cookie twice under one `(name, domain, path)` key leaves
exactly one cookie with that key in the jar, holding the second value. -/
theorem cookiesSet_twice (jar : List Cookie) (n d pa v1 v2 : String) :
    (cookiesSet (cookiesSet jar n v1 d pa) n v2 d pa).filter
        (fun c => cookieKeyMatches c n d pa)
      = [{ name := n, value := v2, domain := d, path := pa }] := by
  have hself : ∀ v, cookieKeyMatches
      { name := n, value := v, domain := d, path := pa } n d pa = true := by
    intro v
    simp [cookieKeyMatches]
  unfold cookiesSet
  rw [List.filter_append, List.filter_append, List.filter_filter]
  have h1 : (jar.filter fun a =>
      cookieKeyMatches a n d pa && !cookieKeyMatches a n d pa) = [] := by
    rw [List.filter_eq_nil]
    intro c _
    simp
  have h2 : (List.filter (fun c => !cookieKeyMatches c n d pa)
      [{ name := n, value := v1, domain := d, path := pa }]) = [] := by
    simp [List.filter_cons, hself v1]
  rw [h2]
  simp only [List.filter_append, h1, List.filter_filter]
  have h3 : (jar.filter fun a =>
      cookieKeyMatches a n d pa &&
        (!cookieKeyMatches a n d pa && !cookieKeyMatches a n d pa)) = [] := by
    rw [List.filter_eq_nil]
    intro c _
    simp
  rw [h3]
  simp [List.filter_cons, hself v2]

/-- Claim C7: on a live session, merging a cookie with a given
`(name, domain, path)` key twice with two values leaves exactly one stored
cookie under that key, holding the second value. -/
theorem c7_merge_cookie_twice (m : SessionManager) (sid : String)
    (r : SessionData) (n d pa v1 v2 : String)
    (hr : getSession m sid = some r) :
    (getSession
        (mergeSessionCookie (mergeSessionCookie m sid n v1 d pa) sid n v2 d pa)
        sid).map
        (fun r2 => r2.session_instance.cookies.filter
          (fun c => cookieKeyMatches c n d pa))
      = some [{ name := n, value := v2, domain := d, path := pa }] := by
  unfold mergeSessionCookie
  rw [getSession_mapEntry_self, getSession_mapEntry_self, hr]
  simp [cookiesSet_twice]

/-- Witness for C7 on the sample session. -/
theorem c7_witness :
    (getSession
        (mergeSessionCookie (mergeSessionCookie sampleMgr "s1" "a" "1" "d" "/")
          "s1" "a" "2" "d" "/") "s1").map
        (fun r2 => r2.session_instance.cookies.filter
          (fun c => cookieKeyMatches c "a" "d" "/"))
      = some [{ name := "a", value := "2", domain := "d", path := "/" }] :=
  c7_merge_cookie_twice sampleMgr "s1" sampleRecord "a" "d" "/" "1" "2" (by decide)

/-- Counterexample for C8: a timed-out `forward` does return 408, but when
the payload supplies an extra cookie the session's stored cookies after the
call differ from their state before the call (they were merged before the
network I/O), refuting the claim that the stored cookies are identical to
their pre-call state for every timed-out forward. -/
theorem c8_counterexample :
    (forward sampleMgr "s1" cookiePayload .timeout).2.status_code = 408
    ∧ (getSession (forward sampleMgr "s1" cookiePayload .timeout).1 "s1").map
        (fun x => x.session_instance.cookies)
      ≠ (getSession sampleMgr "s1").map (fun x => x.session_instance.cookies) := by
  decide

/-- Claim C8 (amended): a timed-out `forward` returns 408 and leaves the
session's header set unmodified and performs no response-cookie merge-back;
the stored cookies are unchanged whenever the payload supplies no extra
cookies, and in general are exactly the pre-call jar with the payload's
cookies merged in (that merge happens before the network call). -/
theorem c8_timeout_frame (m : SessionManager) (sid : String)
    (r : SessionData) (p : HTTPRequestPayload)
    (hr : getSession m sid = some r) :
    (forward m sid p .timeout).2.status_code = 408
    ∧ (getSession (forward m sid p .timeout).1 sid).map
        (fun x => x.session_instance.headers) = some r.session_instance.headers
    ∧ (getSession (forward m sid p .timeout).1 sid).map
        (fun x => x.session_instance.cookies)
        = some (mergePayloadCookies r.session_instance.cookies p.cookies)
    ∧ (p.cookies = none →
        (getSession (forward m sid p .timeout).1 sid).map
          (fun x => x.session_instance.cookies) = some r.session_instance.cookies) := by
  have hstate : (forward m sid p .timeout).1
      = setSessionCookies m sid
          (mergePayloadCookies r.session_instance.cookies p.cookies) := by
    simp [forward, hr]
  have hlook : getSession (forward m sid p .timeout).1 sid
      = some { r with session_instance :=
          { r.session_instance with
            cookies := mergePayloadCookies r.session_instance.cookies p.cookies } } := by
    rw [hstate]
    unfold setSessionCookies
    rw [getSession_mapEntry_self, hr]
    rfl
  refine ⟨by simp [forward, hr], ?_, ?_, ?_⟩
  · rw [hlook]
    rfl
  · rw [hlook]
    rfl
  · intro hc
    rw [hlook]
    simp [mergePayloadCookies, hc]

/-- Witness for the amended C8 on the sample session with a cookie-free
payload. -/
theorem c8_witness :
    (forward sampleMgr "s1" samplePayload .timeout).2.status_code = 408
    ∧ (getSession (forward sampleMgr "s1" samplePayload .timeout).1 "s1").map
        (fun x => x.session_instance.headers)
        = some sampleRecord.session_instance.headers
    ∧ (getSession (forward sampleMgr "s1" samplePayload .timeout).1 "s1").map
        (fun x => x.session_instance.cookies)
        = some sampleRecord.session_instance.cookies := by
  have h := c8_timeout_frame sampleMgr "s1" sampleRecord samplePayload (by decide)
  exact ⟨h.1, h.2.1, h.2.2.2 rfl⟩

/-- With unique keys, a member pair is what `find?` returns for its key. -/
theorem getSession_of_mem_nodup (l : List (String × SessionData)) (k : String)
    (r : SessionData) (hnd : (l.map (fun p => p.1)).Nodup)
    (hmem : (k, r) ∈ l) :
    l.find? (fun p => p.1 == k) = some (k, r) := by
  induction l with
  | nil => cases hmem
  | cons a t ih =>
      rw [List.map_cons, List.nodup_cons] at hnd
      rcases List.mem_cons.mp hmem with heq | hmem'
      · rw [← heq]
        simp [List.find?_cons]
      · have hbe : (a.1 == k) = false := by
          cases hbeq : (a.1 == k)
          · rfl
          · exact absurd (by
              rw [eq_of_beq hbeq]
              exact List.mem_map_of_mem (fun p => p.1) hmem') hnd.1
        simp only [List.find?_cons, hbe]
        exact ih hnd.2 hmem'

/-- Two members of a unique-keyed list with the same key are equal. -/
theorem mem_unique_of_nodup_keys (l : List (String × SessionData))
    (hnd : (l.map (fun p => p.1)).Nodup) (x y : String × SessionData)
    (hx : x ∈ l) (hy : y ∈ l) (hkey : x.1 = y.1) : x = y := by
  induction l with
  | nil => cases hx
  | cons a t ih =>
      rw [List.map_cons, List.nodup_cons] at hnd
      rcases List.mem_cons.mp hx with rfl | hx'
      · rcases List.mem_cons.mp hy with rfl | hy'
        · rfl
        · exact absurd (by
            rw [hkey]
            exact List.mem_map_of_mem (fun p => p.1) hy') hnd.1
      · rcases List.mem_cons.mp hy with rfl | hy'
        · exact absurd (by
            rw [← hkey]
            exact List.mem_map_of_mem (fun p => p.1) hx') hnd.1
        · exact ih hnd.2 hx' hy'

/-- Folding `deleteSession` over a unique, resolvable batch of ids removes
exactly those entries and closes exactly those handles, in order. -/
theorem foldl_delete_spec (pend : List (String × SessionData)) :
    ∀ m : SessionManager,
    ((pend.map (fun p => p.1)).Nodup) →
    (∀ q ∈ pend, getSession m q.1 = some q.2) →
    ((pend.map (fun p => p.1)).foldl
        (fun acc session_id => deleteSession acc session_id) m).sessions
        = m.sessions.filter
            (fun p => !((pend.map (fun q => q.1)).any (fun k => p.1 == k)))
    ∧ ((pend.map (fun p => p.1)).foldl
        (fun acc session_id => deleteSession acc session_id) m).closedHandles
        = m.closedHandles ++ pend.map (fun q => q.2.session_instance.handle)
    ∧ ((pend.map (fun p => p.1)).foldl
        (fun acc session_id => deleteSession acc session_id) m).session_timeout
        = m.session_timeout := by
  induction pend with
  | nil =>
      intro m _ _
      refine ⟨by simp, by simp, rfl⟩
  | cons q rest ih =>
      intro m hnd hget
      rw [List.map_cons, List.nodup_cons] at hnd
      have hq := hget q (List.mem_cons_self _ _)
      have hdel_sessions : (deleteSession m q.1).sessions
          = m.sessions.filter (fun p => p.1 != q.1) := by
        unfold deleteSession
        rw [hq]
      have hdel_closed : (deleteSession m q.1).closedHandles
          = m.closedHandles ++ [q.2.session_instance.handle] := by
        unfold deleteSession
        rw [hq]
      have hget' : ∀ x ∈ rest, getSession (deleteSession m q.1) x.1 = some x.2 := by
        intro x hx
        have hne : x.1 ≠ q.1 := by
          intro hco
          apply hnd.1
          rw [← hco]
          exact List.mem_map_of_mem (fun p => p.1) hx
        rw [getSession_deleteSession_other m q.1 x.1 hne]
        exact hget x (List.mem_cons_of_mem _ hx)
      have hih := ih (deleteSession m q.1) hnd.2 hget'
      refine ⟨?_, ?_, ?_⟩
      · rw [List.map_cons, List.foldl_cons, hih.1, hdel_sessions,
          List.filter_filter]
        apply List.filter_congr
        intro x _
        simp [bne, Bool.not_or, Bool.and_comm]
      · rw [List.map_cons, List.foldl_cons, hih.2.1, hdel_closed]
        simp
      · rw [List.map_cons, List.foldl_cons, hih.2.2, deleteSession_timeout]

/-- Under unique keys, membership of a key among the expired entries' ids is
the expiry test itself. -/
theorem any_expired_key_eq (m : SessionManager) (now : Nat) (hWF : WF m)
    (x : String × SessionData) (hx : x ∈ m.sessions) :
    ((m.sessions.filter
        (fun p => now - p.2.last_activity > m.session_timeout)).map
          (fun q => q.1)).any (fun k => x.1 == k)
      = decide (now - x.2.last_activity > m.session_timeout) := by
  cases heb : decide (now - x.2.last_activity > m.session_timeout) with
  | true =>
      apply List.any_eq_true.mpr
      refine ⟨x.1, List.mem_map_of_mem _ (List.mem_filter.mpr ⟨hx, heb⟩), ?_⟩
      exact beq_self_eq_true x.1
  | false =>
      cases hany : ((m.sessions.filter
          (fun p => now - p.2.last_activity > m.session_timeout)).map
            (fun q => q.1)).any (fun k => x.1 == k) with
      | false => rfl
      | true =>
          obtain ⟨k, hk, hbeq⟩ := List.any_eq_true.mp hany
          obtain ⟨y, hy, hyk⟩ := List.mem_map.mp hk
          have hymem := List.mem_filter.mp hy
          have hxy : y = x :=
            mem_unique_of_nodup_keys m.sessions hWF y x hymem.1 hx
              (by rw [hyk, ← eq_of_beq hbeq])
          have h2 := hymem.2
          rw [hxy, heb] at h2
          exact absurd h2 (by simp)

/-- What one cleanup pass does to a well-formed store: evict exactly the
expired entries, close exactly their handles, keep the timeout, return the
embedded Python `None`. -/
theorem cleanup_spec (m : SessionManager) (now : Nat) (hWF : WF m) :
    (cleanupExpiredSessions m now).1.sessions
        = m.sessions.filter
            (fun p => !(decide (now - p.2.last_activity > m.session_timeout)))
    ∧ (cleanupExpiredSessions m now).1.closedHandles
        = m.closedHandles
          ++ (m.sessions.filter
              (fun p => now - p.2.last_activity > m.session_timeout)).map
                (fun q => q.2.session_instance.handle)
    ∧ (cleanupExpiredSessions m now).1.session_timeout = m.session_timeout
    ∧ (cleanupExpiredSessions m now).2 = none := by
  have hsub : ((m.sessions.filter
      (fun p => now - p.2.last_activity > m.session_timeout)).map
        (fun p => p.1)).Sublist (m.sessions.map (fun p => p.1)) :=
    List.Sublist.map (fun p => p.1) (List.filter_sublist m.sessions)
  have hnd_pend := List.Nodup.sublist hsub hWF
  have hget_pend : ∀ q ∈ m.sessions.filter
      (fun p => now - p.2.last_activity > m.session_timeout),
      getSession m q.1 = some q.2 := by
    intro q hq
    have hqmem : q ∈ m.sessions := (List.mem_filter.mp hq).1
    unfold getSession
    rw [getSession_of_mem_nodup m.sessions q.1 q.2 hWF hqmem]
    rfl
  have hfold := foldl_delete_spec
    (m.sessions.filter (fun p => now - p.2.last_activity > m.session_timeout))
    m hnd_pend hget_pend
  refine ⟨?_, hfold.2.1, hfold.2.2, rfl⟩
  rw [show (cleanupExpiredSessions m now).1
      = ((m.sessions.filter
          (fun p => now - p.2.last_activity > m.session_timeout)).map
            (fun p => p.1)).foldl
          (fun acc session_id => deleteSession acc session_id) m from rfl]
  rw [hfold.1]
  apply List.filter_congr
  intro x hx
  rw [any_expired_key_eq m now hWF x hx]

/-- Claim C5 (amended): `cleanupExpiredSessions` evicts exactly the records
whose idle time exceeds the timeout, closing (releasing) exactly the evicted
records' client handles, leaves every other record and the configured
timeout untouched — but it returns no eviction count: the Python function
returns `None`. -/
theorem c5_cleanup (m : SessionManager) (now : Nat) (hWF : WF m) :
    (cleanupExpiredSessions m now).1.sessions
        = m.sessions.filter
            (fun p => !(decide (now - p.2.last_activity > m.session_timeout)))
    ∧ (cleanupExpiredSessions m now).1.closedHandles
        = m.closedHandles
          ++ (m.sessions.filter
              (fun p => now - p.2.last_activity > m.session_timeout)).map
                (fun q => q.2.session_instance.handle)
    ∧ (cleanupExpiredSessions m now).1.session_timeout = m.session_timeout
    ∧ (cleanupExpiredSessions m now).2 = none :=
  cleanup_spec m now hWF

/-- Counterexample for C5: at a concrete store one expired session is
evicted, yet `cleanupExpiredSessions` does not return the eviction count —
the embedded Python return value is `None`, not `1`. -/
theorem c5_counterexample :
    (cleanupExpiredSessions sampleMgr 100).1.sessions = []
    ∧ (cleanupExpiredSessions sampleMgr 100).2 = none
    ∧ (cleanupExpiredSessions sampleMgr 100).2 ≠ some 1 := by
  decide

/-- Witness for the amended C5 at the sample store. -/
theorem c5_witness :
    (cleanupExpiredSessions sampleMgr 100).1.sessions
        = sampleMgr.sessions.filter
            (fun p => !(decide (100 - p.2.last_activity > sampleMgr.session_timeout)))
    ∧ (cleanupExpiredSessions sampleMgr 100).1.closedHandles
        = sampleMgr.closedHandles
          ++ (sampleMgr.sessions.filter
              (fun p => 100 - p.2.last_activity > sampleMgr.session_timeout)).map
                (fun q => q.2.session_instance.handle)
    ∧ (cleanupExpiredSessions sampleMgr 100).2 = none := by
  have h := c5_cleanup sampleMgr 100 (by unfold WF; decide)
  exact ⟨h.1, h.2.1, h.2.2.2⟩


/-- A `find?` hit on a key predicate is a member carrying that key. -/
theorem find?_eq_some_key (l : List (String × SessionData)) (sid : String)
    (q : String × SessionData)
    (h : l.find? (fun p => p.1 == sid) = some q) : q ∈ l ∧ q.1 = sid := by
  induction l with
  | nil => cases h
  | cons a t ih =>
      cases hap : (a.1 == sid) with
      | true =>
          simp only [List.find?_cons, hap] at h
          cases h
          exact ⟨List.mem_cons_self _ _, eq_of_beq hap⟩
      | false =>
          simp only [List.find?_cons, hap] at h
          obtain ⟨hmem, hkey⟩ := ih h
          exact ⟨List.mem_cons_of_mem _ hmem, hkey⟩

/-- If the first key hit survives a filter, it is still the first hit in the
filtered list. -/
theorem find?_filter_keep (l : List (String × SessionData))
    (keep : String × SessionData → Bool) (sid : String)
    (q : String × SessionData)
    (hg : l.find? (fun p => p.1 == sid) = some q)
    (hkeep : keep q = true) :
    (l.filter keep).find? (fun p => p.1 == sid) = some q := by
  induction l with
  | nil => cases hg
  | cons a t ih =>
      cases hap : (a.1 == sid) with
      | true =>
          simp only [List.find?_cons, hap] at hg
          cases hg
          rw [List.filter_cons, if_pos hkeep]
          simp only [List.find?_cons, hap]
      | false =>
          simp only [List.find?_cons, hap] at hg
          rw [List.filter_cons]
          cases hk : keep a with
          | true =>
              rw [if_pos rfl]
              simp only [List.find?_cons, hap]
              exact ih hg
          | false =>
              rw [if_neg (by simp)]
              exact ih hg

/-- `getSession` through a cleanup pass: an expired entry is gone, anything
else resolves as before. -/
theorem getSession_cleanup (m : SessionManager) (now : Nat) (sid : String)
    (hWF : WF m) :
    getSession (cleanupExpiredSessions m now).1 sid
      = match getSession m sid with
        | none => none
        | some r =>
            if now - r.last_activity > m.session_timeout then none else some r := by
  have hses := (cleanup_spec m now hWF).1
  unfold getSession
  rw [hses]
  cases hg : m.sessions.find? (fun p => p.1 == sid) with
  | none =>
      have hnone : ∀ x ∈ m.sessions.filter
          (fun p => !(decide (now - p.2.last_activity > m.session_timeout))),
          ¬ ((fun p => p.1 == sid) x = true) := by
        intro x hx
        exact List.find?_eq_none.mp hg x (List.mem_filter.mp hx).1
      rw [List.find?_eq_none.mpr hnone]
      rfl
  | some q =>
      obtain ⟨hqmem, hqkey⟩ := find?_eq_some_key m.sessions sid q hg
      by_cases hexp : now - q.2.last_activity > m.session_timeout
      · have hnone : ∀ x ∈ m.sessions.filter
            (fun p => !(decide (now - p.2.last_activity > m.session_timeout))),
            ¬ ((fun p => p.1 == sid) x = true) := by
          intro x hx hxp
          have hxm := List.mem_filter.mp hx
          have hxq : x = q := mem_unique_of_nodup_keys m.sessions hWF x q hxm.1
            hqmem (by rw [eq_of_beq hxp, hqkey])
          have h2 := hxm.2
          rw [hxq] at h2
          simp [hexp] at h2
        rw [List.find?_eq_none.mpr hnone]
        simp [hexp]
      · have hkeep : (fun (p : String × SessionData) =>
            !(decide (now - p.2.last_activity > m.session_timeout))) q = true := by
          simp [hexp]
        rw [find?_filter_keep m.sessions _ sid q hg hkeep]
        simp [hexp]

/-- The middleware's pre-validation cleanup pass does not change the verdict
of `isSessionValid`, and for a valid id it changes neither the verdict nor
the record. -/
theorem isValid_cleanup (m : SessionManager) (now : Nat) (sid : String)
    (hWF : WF m) :
    ((isSessionValid (cleanupExpiredSessions m now).1 now sid).1
        = (isSessionValid m now sid).1)
    ∧ ((isSessionValid m now sid).1 = true →
        isSessionValid (cleanupExpiredSessions m now).1 now sid
          = (true, (cleanupExpiredSessions m now).1)
        ∧ getSession (cleanupExpiredSessions m now).1 sid = getSession m sid) := by
  have hlook := getSession_cleanup m now sid hWF
  have htm := (cleanup_spec m now hWF).2.2.1
  cases hr : getSession m sid with
  | none =>
      rw [hr] at hlook
      constructor
      · simp [isSessionValid, hlook, hr]
      · intro hv
        simp [isSessionValid, hr] at hv
  | some r =>
      by_cases hexp : now - r.last_activity > m.session_timeout
      · rw [hr] at hlook
        have hlook2 : getSession (cleanupExpiredSessions m now).1 sid = none := by
          rw [hlook]
          simp [hexp]
        constructor
        · simp [isSessionValid, hlook2, hr, hexp]
        · intro hv
          simp [isSessionValid, hr, hexp] at hv
      · rw [hr] at hlook
        have hlook2 : getSession (cleanupExpiredSessions m now).1 sid = some r := by
          rw [hlook]
          simp [hexp]
        have hcond : ¬ (now - r.last_activity
            > (cleanupExpiredSessions m now).1.session_timeout) := by
          rw [htm]
          exact hexp
        constructor
        · simp [isSessionValid, hlook2, hr, hexp, hcond]
        · intro _
          constructor
          · simp [isSessionValid, hlook2, hcond]
          · rw [hlook2]

/-- Claim C2 (amended): allow-listed paths pass through with no validation;
for other paths a missing session header — or one whose value is the empty
string, which the middleware's falsy test treats the same way — yields 401
with the missing-id body and the handler never runs; a present nonempty id
failing `isSessionValid` yields 401 with the invalid-session body; a valid
id has its record touched (`last_activity := now`, `request_count + 1`), is
attached to the request state, and the handler runs. -/
theorem c2_dispatch (m : SessionManager) (now : Nat) (path : String)
    (h : Option String) (hresp : MWResponse) (hWF : WF m) :
    (URI_EXCEPTIONS.contains path = true →
      dispatch m now path h hresp
        = { response := hresp, state := m, attached_session_id := none,
            handler_called := true })
    ∧ (URI_EXCEPTIONS.contains path = false →
        ((h = none ∨ h = some "") →
          dispatch m now path h hresp
            = { response := { status_code := 401, message := some missingMsg },
                state := m, attached_session_id := none,
                handler_called := false })
        ∧ (∀ sid, h = some sid → sid ≠ "" →
            ((isSessionValid m now sid).1 = false →
              (dispatch m now path h hresp).response
                  = { status_code := 401, message := some invalidMsg }
              ∧ (dispatch m now path h hresp).handler_called = false
              ∧ (dispatch m now path h hresp).attached_session_id = none)
            ∧ ((isSessionValid m now sid).1 = true →
              (dispatch m now path h hresp).response = hresp
              ∧ (dispatch m now path h hresp).handler_called = true
              ∧ (dispatch m now path h hresp).attached_session_id = some sid
              ∧ ∀ r, getSession m sid = some r →
                  getSession (dispatch m now path h hresp).state sid
                    = some (touchRecord now r)))) := by
  refine ⟨?_, ?_⟩
  · intro hp
    unfold dispatch
    rw [if_pos hp]
  · intro hp
    have hp2 : path ∉ URI_EXCEPTIONS := by simpa using hp
    constructor
    · rintro (rfl | rfl)
      · simp [dispatch, hp, hp2]
      · simp [dispatch, hp, hp2]
    · intro sid hsid hne
      subst hsid
      have hbe : (sid == "") = false := by
        cases hb : (sid == "")
        · rfl
        · exact absurd (eq_of_beq hb) hne
      have hva := isValid_cleanup m now sid hWF
      constructor
      · intro hinvalid
        have hv1 : (isSessionValid (cleanupExpiredSessions m now).1 now sid).1
            = false := by
          rw [hva.1, hinvalid]
        refine ⟨?_, ?_, ?_⟩ <;> simp [dispatch, hp, hp2, hbe, hv1]
      · intro hvalid
        have hvfull := (hva.2 hvalid).1
        have hlookup := (hva.2 hvalid).2
        refine ⟨?_, ?_, ?_, ?_⟩
        · simp [dispatch, hp, hp2, hbe, hvfull]
        · simp [dispatch, hp, hp2, hbe, hvfull]
        · simp [dispatch, hp, hp2, hbe, hvfull]
        · intro r hrr
          have hstate : (dispatch m now path (some sid) hresp).state
              = updateLastActivity (cleanupExpiredSessions m now).1 now sid := by
            simp [dispatch, hp, hp2, hbe, hvfull]
          rw [hstate]
          unfold updateLastActivity
          have hex : sessionExists (cleanupExpiredSessions m now).1 sid = true := by
            rw [sessionExists_eq, hlookup, hrr]
            rfl
          rw [if_pos hex, getSession_mapEntry_self, hlookup, hrr]
          rfl

/-- Counterexample for C2: with an empty (but present) `X-Session-Id` header
value, the session is invalid, yet the middleware answers with the
missing-id body, not the invalid/expired-session body the claim requires for
every present-but-invalid id. -/
theorem c2_counterexample :
    (isSessionValid emptyMgr 0 "").1 = false
    ∧ (dispatch emptyMgr 0 "/forward" (some "")
        { status_code := 200 }).response.message = some missingMsg
    ∧ missingMsg ≠ invalidMsg := by
  refine ⟨by decide, by decide, by decide⟩

/-- Witness for the amended C2: a valid session id on a guarded path is
touched and attached, and the handler runs. -/
theorem c2_witness :
    (dispatch sampleMgr 5 "/forward" (some "s1")
        { status_code := 200 }).response = { status_code := 200 }
    ∧ (dispatch sampleMgr 5 "/forward" (some "s1")
        { status_code := 200 }).handler_called = true
    ∧ (dispatch sampleMgr 5 "/forward" (some "s1")
        { status_code := 200 }).attached_session_id = some "s1"
    ∧ getSession (dispatch sampleMgr 5 "/forward" (some "s1")
        { status_code := 200 }).state "s1"
        = some (touchRecord 5 sampleRecord) := by
  have h := ((c2_dispatch sampleMgr 5 "/forward" (some "s1")
      { status_code := 200 } (by unfold WF; decide)).2 (by decide)).2
      "s1" rfl (by decide)
  have hv := h.2 (by decide)
  exact ⟨hv.1, hv.2.1, hv.2.2.1, hv.2.2.2 sampleRecord (by decide)⟩

/-- With unique keys, the entries under the found key form exactly the found
singleton. -/
theorem filter_key_eq_singleton (l : List (String × SessionData)) (sid : String)
    (q : String × SessionData) (hnd : (l.map (fun p => p.1)).Nodup)
    (hg : l.find? (fun p => p.1 == sid) = some q) :
    l.filter (fun p => p.1 == sid) = [q] := by
  induction l with
  | nil => cases hg
  | cons a t ih =>
      rw [List.map_cons, List.nodup_cons] at hnd
      cases hap : (a.1 == sid) with
      | true =>
          simp only [List.find?_cons, hap] at hg
          cases hg
          rw [List.filter_cons, if_pos hap]
          have htail : t.filter (fun p => p.1 == sid) = [] := by
            rw [List.filter_eq_nil_iff]
            intro x hx hxp
            apply hnd.1
            rw [eq_of_beq hap, ← eq_of_beq hxp]
            exact List.mem_map_of_mem (fun p => p.1) hx
          rw [htail]
      | false =>
          simp only [List.find?_cons, hap] at hg
          rw [List.filter_cons, if_neg (by simp [hap])]
          exact ih hnd.2 hg

/-- `deleteSession` keeps the exactly-once ownership of handles: the evicted
handle moves from the live side to the closed side. -/
theorem deleteSession_handleInv (m : SessionManager) (sid : String)
    (hWF : WF m) (hInv : HandleInv m) : HandleInv (deleteSession m sid) := by
  unfold deleteSession
  cases hg : getSession m sid with
  | none => exact hInv
  | some r =>
      obtain ⟨q, hfind, hq2⟩ : ∃ q, m.sessions.find? (fun p => p.1 == sid) = some q
          ∧ q.2 = r := by
        unfold getSession at hg
        cases hf : m.sessions.find? (fun p => p.1 == sid) with
        | none =>
            rw [hf] at hg
            cases hg
        | some q =>
            rw [hf] at hg
            refine ⟨q, rfl, ?_⟩
            cases hg
            rfl
      have hsingle : m.sessions.filter (fun p => p.1 == sid) = [q] :=
        filter_key_eq_singleton m.sessions sid q hWF hfind
      have hperm : List.Perm (m.sessions.filter (fun p => p.1 != sid)
          ++ m.sessions.filter (fun p => p.1 == sid)) m.sessions := by
        have hcong : m.sessions.filter (fun a => !(a.1 != sid))
            = m.sessions.filter (fun p => p.1 == sid) :=
          List.filter_congr (fun x _ => by simp [bne])
        have h0 := List.filter_append_perm (fun p => p.1 != sid) m.sessions
        rw [hcong] at h0
        exact h0
      have hperm2 : List.Perm
          ((m.sessions.filter (fun p => p.1 != sid)).map
              (fun p => p.2.session_instance.handle)
            ++ [r.session_instance.handle])
          (m.sessions.map (fun p => p.2.session_instance.handle)) := by
        have hmap := hperm.map (fun p => p.2.session_instance.handle)
        rw [List.map_append, hsingle] at hmap
        rw [show List.map (fun p => p.2.session_instance.handle) [q]
            = [r.session_instance.handle] from by rw [← hq2]; rfl] at hmap
        exact hmap
      unfold HandleInv liveHandles at hInv ⊢
      show ((m.sessions.filter (fun p => p.1 != sid)).map
          (fun p => p.2.session_instance.handle)
        ++ (m.closedHandles ++ [r.session_instance.handle])).Nodup
      have h1 := (hperm2.symm).append_right m.closedHandles
      rw [List.append_assoc] at h1
      have h2 := h1.trans
        (List.Perm.append_left _ List.perm_append_comm)
      exact h2.nodup hInv

/-- The self-evicting validity check keeps the ownership invariant. -/
theorem isSessionValid_handleInv (m : SessionManager) (now : Nat) (sid : String)
    (hWF : WF m) (hInv : HandleInv m) :
    HandleInv ((isSessionValid m now sid).2) := by
  unfold isSessionValid
  cases hg : getSession m sid with
  | none => exact hInv
  | some r =>
      show HandleInv (if now - r.last_activity > m.session_timeout then
        ((false : Bool), deleteSession m sid) else ((true : Bool), m)).2
      by_cases hexp : now - r.last_activity > m.session_timeout
      · rw [if_pos hexp]
        exact deleteSession_handleInv m sid hWF hInv
      · rw [if_neg hexp]
        exact hInv

/-- The sweep keeps the ownership invariant: evicted handles move wholesale
from the live side to the closed side. -/
theorem cleanup_handleInv (m : SessionManager) (now : Nat)
    (hWF : WF m) (hInv : HandleInv m) :
    HandleInv ((cleanupExpiredSessions m now).1) := by
  have hc := cleanup_spec m now hWF
  unfold HandleInv liveHandles at hInv ⊢
  rw [hc.1, hc.2.1]
  have hcong : m.sessions.filter (fun a =>
      !((fun p => !(decide (now - p.2.last_activity > m.session_timeout))) a))
      = m.sessions.filter
          (fun p => decide (now - p.2.last_activity > m.session_timeout)) :=
    List.filter_congr (fun x _ => by simp)
  have hperm : List.Perm
      (m.sessions.filter
          (fun p => !(decide (now - p.2.last_activity > m.session_timeout)))
        ++ m.sessions.filter
          (fun p => decide (now - p.2.last_activity > m.session_timeout)))
      m.sessions := by
    have h0 := List.filter_append_perm
      (fun p => !(decide (now - p.2.last_activity > m.session_timeout))) m.sessions
    rw [hcong] at h0
    exact h0
  have hmap := hperm.map (fun p => p.2.session_instance.handle)
  rw [List.map_append] at hmap
  have h1 := (hmap.symm).append_right m.closedHandles
  rw [List.append_assoc] at h1
  have h2 := h1.trans (List.Perm.append_left _ List.perm_append_comm)
  exact h2.nodup hInv

/-- Claim C9: `deleteSession` removes the record and closes its outbound
client handle exactly once, is idempotent (a no-op on an absent id), and all
deletion paths — explicit delete, validity self-eviction, sweeper eviction —
preserve the exactly-once ownership of every handle. -/
theorem c9_delete_release (m : SessionManager) (sid : String) (now : Nat)
    (hWF : WF m) (hInv : HandleInv m) :
    (getSession m sid = none → deleteSession m sid = m)
    ∧ deleteSession (deleteSession m sid) sid = deleteSession m sid
    ∧ (∀ r, getSession m sid = some r →
        getSession (deleteSession m sid) sid = none
        ∧ (deleteSession m sid).closedHandles
            = m.closedHandles ++ [r.session_instance.handle]
        ∧ HandleInv (deleteSession m sid))
    ∧ HandleInv ((isSessionValid m now sid).2)
    ∧ HandleInv ((cleanupExpiredSessions m now).1) := by
  have habs : ∀ m' : SessionManager, getSession m' sid = none →
      deleteSession m' sid = m' := by
    intro m' h'
    unfold deleteSession
    rw [h']
  refine ⟨habs m, habs _ (getSession_deleteSession_self m sid), ?_,
    isSessionValid_handleInv m now sid hWF hInv,
    cleanup_handleInv m now hWF hInv⟩
  intro r hg
  refine ⟨getSession_deleteSession_self m sid, ?_,
    deleteSession_handleInv m sid hWF hInv⟩
  unfold deleteSession
  rw [hg]

/-- Witness for C9 on the sample store. -/
theorem c9_witness :
    getSession (deleteSession sampleMgr "s1") "s1" = none
    ∧ (deleteSession sampleMgr "s1").closedHandles
        = sampleMgr.closedHandles ++ [sampleRecord.session_instance.handle]
    ∧ HandleInv (deleteSession sampleMgr "s1")
    ∧ deleteSession (deleteSession sampleMgr "s1") "s1"
        = deleteSession sampleMgr "s1" := by
  have h := c9_delete_release sampleMgr "s1" 0 (by unfold WF; decide)
    (by unfold HandleInv liveHandles; decide)
  have h3 := h.2.2.1 sampleRecord (by decide)
  exact ⟨h3.1, h3.2.1, h3.2.2, h.2.1⟩
